import Mathlib

/-
Verification of the EasyTra location-aware conversational session manager
against its design specification.

The embedding translates the TypeScript sources:
  - types.ts                      → the data model (Role, GroundingChunk, ChatMessage, …)
  - App.tsx                       → getDistanceFromLatLonInMeters, the geolocation
                                    jitter filter (success handler), handleSendMessage,
                                    the initial conversation state
  - services/geminiService.ts     → getSystemInstruction and the pure request
                                    construction of sendMessageToGemini
  - components/InputArea.tsx      → the submit guard (blank input / loading)
  - components/ChatMessage.tsx    → the citation selection (primaryMapChunk)

JavaScript numbers are modelled as reals where trigonometry is involved
(the distance computation) and as rationals elsewhere (timestamps,
coordinates carried through state); JS `Date` values become rational
milliseconds.  Asynchronous execution is modelled by an event-step
transition system: submitting is one event, the resolution of the
external-service call (success or failure) is another.
-/

namespace EasyTra

/-! ## Data model (types.ts) -/

/-- Role of a chat message: `'user' | 'model'`. -/
inductive Role where
  | user
  | model
deriving DecidableEq, Repr

/-- The `web` variant of a grounding chunk: `{ uri: string; title: string }`. -/
structure WebInfo where
  uri : String
  title : String
deriving DecidableEq, Repr

/-- The `maps` variant of a grounding chunk: `{ uri: string; title: string }`. -/
structure MapsInfo where
  uri : String
  title : String
deriving DecidableEq, Repr

/-- `GroundingChunk` from types.ts: both fields optional. -/
structure GroundingChunk where
  web : Option WebInfo
  maps : Option MapsInfo
deriving DecidableEq, Repr

/-- `ChatMessage` from types.ts.  `isError?: boolean` (absent = false) is a
Bool; `timestamp: Date` is rational milliseconds; `groundingChunks?` is an
optional list. -/
structure ChatMessage where
  id : String
  role : Role
  text : String
  timestamp : ℚ
  isError : Bool
  groundingChunks : Option (List GroundingChunk)
deriving DecidableEq, Repr

/-- `RoutePreference` from types.ts. -/
inductive RoutePreference where
  | FASTEST
  | LEAST_CROWDED
  | LOW_WALKING
  | FEWEST_TRANSFERS
deriving DecidableEq, Repr

/-- The literal string value of a `RoutePreference` (TS string union member). -/
def RoutePreference.toText : RoutePreference → String
  | .FASTEST => "FASTEST"
  | .LEAST_CROWDED => "LEAST_CROWDED"
  | .LOW_WALKING => "LOW_WALKING"
  | .FEWEST_TRANSFERS => "FEWEST_TRANSFERS"

/-- `UserPreferences` from types.ts. -/
structure UserPreferences where
  routePreference : RoutePreference
  accessibilityRequired : Bool
  useCurrentLocation : Bool
deriving DecidableEq, Repr

/-- A `{ lat, lng }` pair as held in App.tsx `userLocation` state. -/
structure Coords where
  lat : ℚ
  lng : ℚ
deriving DecidableEq, Repr

/-- The default preferences App.tsx starts with. -/
def defaultPreferences : UserPreferences :=
  { routePreference := .FASTEST
    accessibilityRequired := false
    useCurrentLocation := true }

/-! ## The distance helper (App.tsx lines 11–26), over the reals -/

/-- `deg2rad` from App.tsx: `deg * (Math.PI / 180)`. -/
noncomputable def deg2rad (deg : ℝ) : ℝ := deg * (Real.pi / 180)

/-- JavaScript `Math.atan2(y, x)` on real arguments (the NaN-free cases;
the distance computation only reaches nonnegative arguments, where this
matches IEEE atan2 exactly). -/
noncomputable def atan2 (y x : ℝ) : ℝ :=
  if 0 < x then Real.arctan (y / x)
  else if x < 0 then
    (if 0 ≤ y then Real.arctan (y / x) + Real.pi else Real.arctan (y / x) - Real.pi)
  else if 0 < y then Real.pi / 2
  else if y < 0 then -(Real.pi / 2)
  else 0

/-- `getDistanceFromLatLonInMeters` from App.tsx, transcribed verbatim.
Note the second product of the `a` term: the source multiplies
`Math.cos(deg2rad(lat1)) * Math.cos(deg2rad(lat1))` — `lat1` twice. -/
noncomputable def getDistanceFromLatLonInMeters (lat1 lon1 lat2 lon2 : ℝ) : ℝ :=
  let R : ℝ := 6371
  let dLat : ℝ := deg2rad (lat2 - lat1)
  let dLon : ℝ := deg2rad (lon2 - lon1)
  let a : ℝ :=
    Real.sin (dLat / 2) * Real.sin (dLat / 2) +
    Real.cos (deg2rad lat1) * Real.cos (deg2rad lat1) *
    Real.sin (dLon / 2) * Real.sin (dLon / 2)
  let c : ℝ := 2 * atan2 (Real.sqrt a) (Real.sqrt (1 - a))
  let d : ℝ := R * c
  d * 1000

/-- The haversine great-circle distance in meters with Earth radius 6371 km,
as the spec states it (the standard formula, with `cos(lat1) * cos(lat2)`).
Kept for comparison with `getDistanceFromLatLonInMeters`. -/
noncomputable def haversineDistanceMeters (lat1 lon1 lat2 lon2 : ℝ) : ℝ :=
  let R : ℝ := 6371
  let dLat : ℝ := deg2rad (lat2 - lat1)
  let dLon : ℝ := deg2rad (lon2 - lon1)
  let a : ℝ :=
    Real.sin (dLat / 2) * Real.sin (dLat / 2) +
    Real.cos (deg2rad lat1) * Real.cos (deg2rad lat2) *
    Real.sin (dLon / 2) * Real.sin (dLon / 2)
  let c : ℝ := 2 * atan2 (Real.sqrt a) (Real.sqrt (1 - a))
  let d : ℝ := R * c
  d * 1000

/-! ## The geolocation jitter filter (App.tsx `success` handler, lines 73–106) -/

/-- The `lastLocationRef` cell contents: `{ lat, lng, timestamp }`. -/
structure LastLocation where
  lat : ℝ
  lng : ℝ
  timestamp : ℝ

/-- The accept/reject decision of the jitter filter as a function of the
already-computed distance: `dist > 20 || (now - lastLocationRef.current.timestamp
> 60000)`, with the unconditional accept when `lastLocationRef.current` is null. -/
noncomputable def acceptFix (lastLocation : Option LastLocation) (dist now : ℝ) : Bool :=
  match lastLocation with
  | none => true
  | some last => decide (dist > 20) || decide (now - last.timestamp > 60000)

/-- The full `shouldUpdate` decision of the `success` handler: computes the
distance from the last accepted position with `getDistanceFromLatLonInMeters`
and applies the threshold test. -/
noncomputable def shouldUpdate (lastLocation : Option LastLocation)
    (latitude longitude now : ℝ) : Bool :=
  match lastLocation with
  | none => true
  | some last =>
      acceptFix (some last)
        (getDistanceFromLatLonInMeters last.lat last.lng latitude longitude) now

/-! ## Citation selection (components/ChatMessage.tsx lines 17–19) -/

/-- JS truthiness of `c.maps?.uri`: the chunk has a `maps` record and its
`uri` is a nonempty string. -/
def hasMapsUri (c : GroundingChunk) : Bool :=
  match c.maps with
  | some m => !(m.uri == "")
  | none => false

/-- `mapChunks` from ChatMessage.tsx:
`message.groundingChunks?.filter(c => c.maps?.uri) || []`. -/
def mapChunks (chunks : Option (List GroundingChunk)) : List GroundingChunk :=
  (chunks.getD []).filter hasMapsUri

/-- `primaryMapChunk` from ChatMessage.tsx:
`mapChunks.length > 0 ? mapChunks[0] : null`. -/
def primaryMapChunk (chunks : Option (List GroundingChunk)) : Option GroundingChunk :=
  (mapChunks chunks).head?

/-- The citations the renderer actually surfaces for a message: the single
primary map embed when one exists, nothing otherwise.  Web-kind chunks are
never rendered anywhere in ChatMessage.tsx (or elsewhere); only the first
chunk with a maps uri produces output (the iframe embed and its footer link). -/
def displayedCitations (chunks : Option (List GroundingChunk)) : List GroundingChunk :=
  match primaryMapChunk chunks with
  | some c => [c]
  | none => []

/-! ## The system instruction (services/geminiService.ts `getSystemInstruction`) -/

/-- `getSystemInstruction` from geminiService.ts: the instruction template with
its two computed pieces (`preferencesText`, `locationContext`) and the inline
`routePreference` splice.  The JS decimal rendering of `lat`/`lng` is modelled
by the canonical rendering of the rational coordinates; every other byte is
the source's. -/
def getSystemInstruction (prefs : UserPreferences) (userLocation : Option Coords) : String :=
  let preferencesText : String :=
    "\n    - Primary Optimization Goal: " ++ prefs.routePreference.toText ++
    "\n    - Accessibility Requirements: " ++
    (if prefs.accessibilityRequired then "Must be wheelchair accessible/step-free."
     else "None.") ++
    "\n  "
  let locationContext : String :=
    match userLocation with
    | some loc =>
        "USER LOCATION: The user is currently located at Lat: " ++ toString loc.lat ++
        ", Lng: " ++ toString loc.lng ++ "."
    | none => "USER LOCATION: Unknown."
  "\n    You are \"EasyTra,\" a super friendly and intelligent AI Trip Assistant. " ++
  "\n    Your mission is to provide accurate, real-time, and personalized mobility advice with a warm, helpful attitude." ++
  "\n    \n    USER PROFILE & PREFERENCES:\n    " ++
  preferencesText ++
  "\n\n    " ++
  locationContext ++
  "\n\n    CORE CAPABILITIES & RULES:" ++
  "\n    1. **Real-Time Data (CRITICAL):** You have access to Google Search and Google Maps. You MUST use them to check for real-time service alerts, delays, weather conditions, current events, and TRAFFIC CONGESTION that impact transit. Do not guess." ++
  "\n    2. **Traffic Reporting:** If you find evidence of heavy traffic, road closures, or congestion, you MUST explicitly mention \"High Traffic\" or \"Heavy Congestion\" in your text response." ++
  "\n    3. **Train & IRCTC Integration:** When the user asks for a destination involving intercity travel (e.g., \"Go to Mumbai\", \"Travel to Delhi\"), you MUST use Google Search to find **IRCTC train schedules** and availability." ++
  "\n       - You MUST list the top available trains." ++
  "\n       - For each train, provide: **Train Name/Number**, **Est. Departure**, **Est. Arrival**, **Total Duration**, and **Approx. Fare/Price**." ++
  "\n    4. **Bus & Fare Breakdown:** Use Google Search to find current bus ticket prices on platforms like **RedBus** or similar services. " ++
  "\n       - **You MUST list fares SEPARATELY** for: **Bus**, **Train**, and **Metro** (where available). Do not lump them together." ++
  "\n    5. **Mode Comparison:** For intercity trips, provide a **\"🚆 Train vs. 🚌 Bus Comparison\"** section. Compare them based on:" ++
  "\n       - **Comfort** (e.g., AC Sleeper bus vs. Train berth)." ++
  "\n       - **Availability** (Frequency and booking ease)." ++
  "\n       - **Price** (Cost effectiveness)." ++
  "\n       - **User Experience** (Online sentiment/ratings)." ++
  "\n    6. **Source Fusion:** Combine schedule data found via Search with external factors (weather, traffic)." ++
  "\n    7. **Crowd Forecasting:** If real-time crowd data is not found, use historical reasoning (e.g., \"5 PM on a Friday implies high congestion\") and state clearly that it is a prediction." ++
  "\n    8. **Optimization:** tailored to the user's optimization goal (" ++
  prefs.routePreference.toText ++
  ")." ++
  "\n    9. **Location Handling:** " ++
  "\n       - IF the user does NOT specify a starting point, assume they are starting from their current location (provided above). " ++
  "\n       - IF the user specifies a starting point (e.g., \"from Central Station\"), use that instead." ++
  "\n    10. **Smart Traffic Management (Crucial for Road Trips):**" ++
  "\n        - IF you detect **Heavy Traffic/Congestion**:" ++
  "\n          a) You MUST search for and provide an **Alternative Route** (even if it's slightly longer in distance, it might be faster)." ++
  "\n          b) You MUST suggest a **Better Departure Time** (e.g., \"Departing in 45 mins will save you ~15 mins\" or \"Wait until 7 PM for traffic to clear\")." ++
  "\n    11. **Walking Directions:** When suggesting a public transit route, you MUST include a specific section for walking directions from the start point to the nearest station/stop." ++
  "\n        - If 'Accessibility Requirements' are active, you MUST explicitly confirm the station is wheelchair accessible (elevators/ramps) and the walking path is step-free." ++
  "\n    \n    OUTPUT FORMAT:" ++
  "\n    - **TRIP STATS HEADER:** Start your main response (after a brief greeting if appropriate) with a dedicated separate line containing these details:" ++
  "\n      **🌤️ Weather: [Condition/Temp] | ⏱️ Duration: [Total Time] | 📏 Distance: [Value] | 💰 Est. Fare: [Range Min-Max] | 🛣️ Tolls: [Count or N/A]**" ++
  "\n    - **Detailed Fares:** Include a distinct section listing: \"🚌 Bus: ~₹X | 🚆 Train: ~₹Y | 🚇 Metro: ~₹Z\"." ++
  "\n    - **Train Details (If applicable):** If trains are involved, present them in a clear bulleted list or markdown table including prices." ++
  "\n    - **comparison (If applicable):** The Bus vs. Train analysis." ++
  "\n    - **🚶 To Station:** Provide brief walking directions to the first stop." ++
  "\n    - **💡 Smart Tips (If Traffic/Delay):** If heavy traffic is found, include a section with:" ++
  "\n      - **🔀 Alt Route:** [Brief description of alternate path]" ++
  "\n      - **⏳ Best Time to Leave:** [Suggestion for when to start trip]" ++
  "\n    - **Concise:** Keep responses under 300 words unless a complex itinerary is needed." ++
  "\n    - **Structure:** Use clear headings, bullet points, and bold text for times/route numbers." ++
  "\n    - **Transparency:** If data is missing (e.g., specific vehicle location), state: \"Real-time data temporarily unavailable; using schedule/historical averages.\"" ++
  "\n    - **Call to Action:** ALWAYS end with a single, clear, friendly question (e.g., \"Shall I save this route for you?\" or \"Want walking directions to the stop?\")." ++
  "\n\n    TONE:" ++
  "\n    Friendly, enthusiastic, warm, and helpful. Avoid being overly stiff or formal. Use natural language and occasional emojis (like 🚌, 🚂, 🚦, 👋) to sound approachable, but keep navigation details clear and precise." ++
  "\n  "

/-! ## The outbound request (services/geminiService.ts `sendMessageToGemini`) -/

/-- The response shape `sendMessageToGemini` resolves with:
`{ text: string; groundingChunks?: GroundingChunk[] }`. -/
structure GeminiResponse where
  text : String
  groundingChunks : Option (List GroundingChunk)
deriving DecidableEq, Repr

/-- Everything `sendMessageToGemini` hands the external service: the system
instruction, the mapped non-error history (`validHistory`), the live message,
and the `toolConfig` focus coordinates. -/
structure OutboundRequest where
  systemInstruction : String
  history : List (Role × String)
  message : String
  focusLatLng : Option Coords
deriving DecidableEq, Repr

/-- The pure request construction performed by `sendMessageToGemini`
(geminiService.ts lines 85–121): `validHistory = history.filter(m =>
!m.isError)`, mapped to role/text pairs; the system instruction from the
current preferences and location; the new message sent separately via
`chat.sendMessage`; the location forwarded as `toolConfig.retrievalConfig.latLng`. -/
def sendMessageToGeminiRequest (history : List ChatMessage) (newMessage : String)
    (preferences : UserPreferences) (userLocation : Option Coords) : OutboundRequest :=
  let validHistory := history.filter (fun m => !m.isError)
  { systemInstruction := getSystemInstruction preferences userLocation
    history := validHistory.map (fun m => (m.role, m.text))
    message := newMessage
    focusLatLng := userLocation }

/-! ## The session orchestrator (App.tsx `handleSendMessage`, InputArea.tsx) -/

/-- The conversation state App.tsx holds: the `messages` list and the
`isLoading` flag (the `ChatState` shape of types.ts). -/
structure ChatState where
  messages : List ChatMessage
  isLoading : Bool
deriving DecidableEq, Repr

/-- The user message `handleSendMessage` appends: fresh id, role user, the
submitted text, no error flag, no grounding chunks. -/
def mkUserMessage (uid text : String) (t : ℚ) : ChatMessage :=
  { id := uid, role := .user, text := text, timestamp := t
    isError := false, groundingChunks := none }

/-- The model message appended on success: the response text and its
grounding chunks, no error flag. -/
def mkBotMessage (bid : String) (r : GeminiResponse) (t : ℚ) : ChatMessage :=
  { id := bid, role := .model, text := r.text, timestamp := t
    isError := false, groundingChunks := r.groundingChunks }

/-- The fixed user-facing apology text of the error message in
App.tsx `handleSendMessage`'s catch block. -/
def networkErrorText : String :=
  "I'm having trouble accessing the network right now. Please try again."

/-- The error message appended on failure: `isError: true`, the fixed apology
text, no grounding chunks. -/
def mkErrorMessage (bid : String) (t : ℚ) : ChatMessage :=
  { id := bid, role := .model, text := networkErrorText, timestamp := t
    isError := true, groundingChunks := none }

/-- Whether the external-service call succeeded (with the resolved response)
or failed (for any reason — the catch block does not inspect the error). -/
inductive ServiceOutcome where
  | success (r : GeminiResponse)
  | failure
deriving DecidableEq, Repr

/-- `handleSendMessage` from App.tsx (lines 135–171), run to completion for a
given outcome of the awaited call.  It appends the user message, builds the
outbound request from the pre-append `messages` (the closure value), appends
the model / error message according to the outcome, and ends with
`setIsLoading(false)` in the `finally` block on either path.  Returns the new
state together with the request handed to the external service. -/
def handleSendMessage (st : ChatState) (prefs : UserPreferences) (loc : Option Coords)
    (text uid bid : String) (t1 t2 : ℚ) (outcome : ServiceOutcome) :
    ChatState × OutboundRequest :=
  let req := sendMessageToGeminiRequest st.messages text prefs loc
  match outcome with
  | .success r =>
      ({ messages := st.messages ++ [mkUserMessage uid text t1, mkBotMessage bid r t2]
         isLoading := false }, req)
  | .failure =>
      ({ messages := st.messages ++ [mkUserMessage uid text t1, mkErrorMessage bid t2]
         isLoading := false }, req)

/-! ## The event-level session machine

InputArea.tsx guards every submit with `if (!input.trim() || isLoading)
return;` before calling `onSend` (= `handleSendMessage`); the resolution of
the awaited external call is a separate event.  `pending` counts in-flight
external calls and `calls` logs every request ever issued, so single-flight
and no-call properties are statable. -/

/-- JavaScript `String.prototype.trim`, as InputArea.tsx applies it to the
submitted text in its guard `if (!input.trim() || isLoading) return;`:
whitespace dropped from both ends, modelled structurally on the character
list so that concrete inputs evaluate. -/
def jsTrim (s : String) : String :=
  ⟨((s.data.dropWhile Char.isWhitespace).reverse.dropWhile Char.isWhitespace).reverse⟩

/-- The welcome text App.tsx initializes the conversation with. -/
def welcomeText : String :=
  "**Hi there! I'm EasyTra!** 👋\n\nI'm here to help you breeze through the city! I'll check live traffic 🚦, service alerts, and crowd levels to find the absolute best route for you.\n\nWhere are you headed today? 🌍"

/-- The initial welcome message (id `'welcome'`, role model) with its
creation time. -/
def welcomeMessage (t0 : ℚ) : ChatMessage :=
  { id := "welcome", role := .model, text := welcomeText, timestamp := t0
    isError := false, groundingChunks := none }

/-- The orchestrator-level state: the conversation, the loading flag, the
number of in-flight external calls, and the log of all requests issued. -/
structure SessionState where
  messages : List ChatMessage
  isLoading : Bool
  pending : ℕ
  calls : List OutboundRequest

/-- The state at mount: just the welcome message, not loading, nothing
in flight. -/
def initState (t0 : ℚ) : SessionState :=
  { messages := [welcomeMessage t0], isLoading := false, pending := 0, calls := [] }

/-- An event of the session: a submit attempt (with the fresh id, time,
and the preferences / location read at that moment) or the resolution of
the in-flight external call. -/
inductive Event where
  | submitInput (input uid : String) (t : ℚ) (prefs : UserPreferences) (loc : Option Coords)
  | serviceResolve (outcome : ServiceOutcome) (bid : String) (t : ℚ)

/-- One event step.  A submit is guarded exactly as InputArea.tsx guards it
(`!input.trim() || isLoading`); when it passes, the user message is appended,
loading is set, and the request built from the pre-append messages goes out.
A resolution (only meaningful with a call in flight) appends the model or
error message and clears the loading flag in the `finally` path. -/
def step (s : SessionState) (e : Event) : SessionState :=
  match e with
  | .submitInput input uid t prefs loc =>
      if (jsTrim input == "") || s.isLoading then s
      else
        { messages := s.messages ++ [mkUserMessage uid input t]
          isLoading := true
          pending := s.pending + 1
          calls := s.calls ++ [sendMessageToGeminiRequest s.messages input prefs loc] }
  | .serviceResolve outcome bid t =>
      if s.pending = 0 then s
      else
        { messages := s.messages ++
            [match outcome with
             | .success r => mkBotMessage bid r t
             | .failure => mkErrorMessage bid t]
          isLoading := false
          pending := s.pending - 1
          calls := s.calls }

/-- The states the session can reach from mount. -/
inductive Reachable : SessionState → Prop
  | init (t0 : ℚ) : Reachable (initState t0)
  | next (s : SessionState) (e : Event) : Reachable s → Reachable (step s e)

/-! ## Helper lemmas -/

/-- The head of a filtered list is the first element satisfying the predicate. -/
theorem head?_filter_eq_find? {α : Type} (p : α → Bool) (l : List α) :
    (l.filter p).head? = l.find? p := by
  induction l with
  | nil => rfl
  | cons a l ih =>
      by_cases h : p a
      · simp [List.filter_cons_of_pos h, List.find?_cons_of_pos _ h]
      · simp only [List.filter_cons_of_neg h, List.find?_cons_of_neg _ h]
        exact ih

/-- The inductive invariant of the session machine: at most one call in
flight, the loading flag tracks exactly the in-flight call, the welcome
message stays at the head of the conversation, and every issued request
starts its history with the welcome entry. -/
def SessionInv (s : SessionState) : Prop :=
  s.pending ≤ 1 ∧
  (s.isLoading = true ↔ s.pending ≠ 0) ∧
  (∃ t0 rest, s.messages = welcomeMessage t0 :: rest) ∧
  (∀ req ∈ s.calls, req.history.head? = some (Role.model, welcomeText))

/-- Every reachable session state satisfies the invariant. -/
theorem reachable_inv (s : SessionState) (h : Reachable s) : SessionInv s := by
  induction h with
  | init t0 =>
      exact ⟨by simp [initState], by simp [initState], ⟨t0, [], rfl⟩,
        by simp [initState]⟩
  | next s e _ ih =>
      obtain ⟨hp, hl, ⟨t0, rest, hm⟩, hc⟩ := ih
      cases e with
      | submitInput input uid t prefs loc =>
          by_cases hg : ((jsTrim input == "") || s.isLoading) = true
          · simp only [step, if_pos hg]
            exact ⟨hp, hl, ⟨t0, rest, hm⟩, hc⟩
          · simp only [step, if_neg hg]
            have hg' : ((jsTrim input == "") || s.isLoading) = false := by
              revert hg
              cases h : ((jsTrim input == "") || s.isLoading) <;> simp
            have hload : s.isLoading = false := (Bool.or_eq_false_iff.mp hg').2
            have hpend : s.pending = 0 := by
              by_contra hne
              exact absurd (hl.mpr hne) (by simp [hload])
            refine ⟨?_, ?_, ⟨t0, rest ++ [mkUserMessage uid input t], by simp [hm]⟩, ?_⟩
            · show s.pending + 1 ≤ 1
              omega
            · show true = true ↔ s.pending + 1 ≠ 0
              simp
            · intro req hreq
              rcases List.mem_append.mp hreq with hold | hnew
              · exact hc req hold
              · have heq : req = sendMessageToGeminiRequest s.messages input prefs loc := by
                  simpa using hnew
                subst heq
                simp only [sendMessageToGeminiRequest, hm]
                rw [List.filter_cons_of_pos (by rfl)]
                rfl
      | serviceResolve outcome bid t =>
          by_cases hg : s.pending = 0
          · simp only [step, if_pos hg]
            exact ⟨hp, hl, ⟨t0, rest, hm⟩, hc⟩
          · cases outcome with
            | success r =>
                simp only [step, if_neg hg]
                refine ⟨?_, ?_, ⟨t0, rest ++ [mkBotMessage bid r t], by simp [hm]⟩, hc⟩
                · show s.pending - 1 ≤ 1
                  omega
                · show false = true ↔ s.pending - 1 ≠ 0
                  have h1 : s.pending = 1 := by omega
                  simp [h1]
            | failure =>
                simp only [step, if_neg hg]
                refine ⟨?_, ?_, ⟨t0, rest ++ [mkErrorMessage bid t], by simp [hm]⟩, hc⟩
                · show s.pending - 1 ≤ 1
                  omega
                · show false = true ↔ s.pending - 1 ≠ 0
                  have h1 : s.pending = 1 := by omega
                  simp [h1]

/-! ## The claims -/

/-- C1 (code bug): at latitude/longitude pairs (0,0) and (90,90) the code's
distance helper returns `6371000 * π` meters, while the haversine great-circle
distance with Earth radius 6371 km is `3185500 * π` meters — the source
multiplies `cos(lat1) * cos(lat1)` where the haversine formula it names in its
own comment requires `cos(lat1) * cos(lat2)`. -/
theorem getDistance_deviates_from_haversine :
    getDistanceFromLatLonInMeters 0 0 90 90 = 6371000 * Real.pi ∧
    haversineDistanceMeters 0 0 90 90 = 3185500 * Real.pi ∧
    getDistanceFromLatLonInMeters 0 0 90 90 ≠ haversineDistanceMeters 0 0 90 90 := by
  have h90 : deg2rad (90 : ℝ) = Real.pi / 2 := by unfold deg2rad; ring
  have h0 : deg2rad (0 : ℝ) = 0 := by unfold deg2rad; ring
  have hsub : (90 : ℝ) - 0 = 90 := by norm_num
  have hsin : Real.sin (Real.pi / 2 / 2) = Real.sqrt 2 / 2 := by
    rw [show Real.pi / 2 / 2 = Real.pi / 4 by ring, Real.sin_pi_div_four]
  have hsin2 : Real.sin (Real.pi / 2 / 2) * Real.sin (Real.pi / 2 / 2) = 1 / 2 := by
    rw [hsin, div_mul_div_comm, Real.mul_self_sqrt (by norm_num : (0:ℝ) ≤ 2)]
    norm_num
  have hAtan1 : atan2 1 0 = Real.pi / 2 := by
    unfold atan2
    rw [if_neg (lt_irrefl (0:ℝ)), if_neg (lt_irrefl (0:ℝ)),
      if_pos (by norm_num : (0:ℝ) < 1)]
  have hs : (0:ℝ) < Real.sqrt (1/2) := Real.sqrt_pos.mpr (by norm_num)
  have hAtanH : atan2 (Real.sqrt (1/2)) (Real.sqrt (1/2)) = Real.pi / 4 := by
    unfold atan2
    rw [if_pos hs, div_self (ne_of_gt hs), Real.arctan_one]
  have hcode : getDistanceFromLatLonInMeters 0 0 90 90 = 6371000 * Real.pi := by
    unfold getDistanceFromLatLonInMeters
    rw [hsub, h90, h0, Real.cos_zero]
    dsimp only
    rw [show Real.sin (Real.pi / 2 / 2) * Real.sin (Real.pi / 2 / 2) +
        1 * 1 * Real.sin (Real.pi / 2 / 2) * Real.sin (Real.pi / 2 / 2) = 1 by
      nlinarith [hsin2]]
    rw [Real.sqrt_one, show (1:ℝ) - 1 = 0 by norm_num, Real.sqrt_zero, hAtan1]
    ring
  have hhav : haversineDistanceMeters 0 0 90 90 = 3185500 * Real.pi := by
    unfold haversineDistanceMeters
    rw [hsub, h90, h0, Real.cos_zero, Real.cos_pi_div_two]
    dsimp only
    rw [show Real.sin (Real.pi / 2 / 2) * Real.sin (Real.pi / 2 / 2) +
        1 * 0 * Real.sin (Real.pi / 2 / 2) * Real.sin (Real.pi / 2 / 2) = 1 / 2 by
      nlinarith [hsin2]]
    rw [show (1:ℝ) - 1/2 = 1/2 by norm_num, hAtanH]
    ring
  have hne : (6371000:ℝ) * Real.pi ≠ 3185500 * Real.pi := by
    intro h
    have := mul_right_cancel₀ Real.pi_ne_zero h
    norm_num at this
  exact ⟨hcode, hhav, by rw [hcode, hhav]; exact hne⟩

/-- C2: the jitter filter accepts unconditionally with no last accepted
position; otherwise it accepts exactly when the computed distance exceeds
20 meters strictly or the elapsed time exceeds 60000 ms strictly.  In
particular, within 60 s a computed distance of exactly 20 m is rejected and
20.01 m is accepted, and distance 0 with elapsed time 60001 ms is accepted. -/
theorem jitter_decision_spec (last : LastLocation) (dist now lat lng : ℝ) :
    acceptFix none dist now = true ∧
    shouldUpdate none lat lng now = true ∧
    (acceptFix (some last) dist now = true ↔
      dist > 20 ∨ now - last.timestamp > 60000) ∧
    (shouldUpdate (some last) lat lng now = true ↔
      getDistanceFromLatLonInMeters last.lat last.lng lat lng > 20 ∨
        now - last.timestamp > 60000) ∧
    (now - last.timestamp < 60000 → acceptFix (some last) 20 now = false) ∧
    (now - last.timestamp < 60000 → acceptFix (some last) 20.01 now = true) ∧
    (now - last.timestamp = 60001 → acceptFix (some last) 0 now = true) := by
  refine ⟨rfl, rfl, ?_, ?_, ?_, ?_, ?_⟩
  · simp [acceptFix]
  · simp [shouldUpdate, acceptFix]
  · intro h
    simp only [acceptFix, Bool.or_eq_false_iff, decide_eq_false_iff_not]
    exact ⟨by norm_num, by linarith⟩
  · intro _
    simp only [acceptFix, Bool.or_eq_true, decide_eq_true_eq]
    left
    norm_num
  · intro h
    simp only [acceptFix, Bool.or_eq_true, decide_eq_true_eq]
    right
    rw [h]
    norm_num

/-- C2 witness: with the last accepted fix at time 0, a fix at time 1000 ms
and computed distance 20 m is rejected, one at 20.01 m is accepted, and a fix
at distance 0 at time 60001 ms is accepted. -/
theorem jitter_decision_spec_witness :
    acceptFix (some ⟨0, 0, 0⟩) 20 1000 = false ∧
    acceptFix (some ⟨0, 0, 0⟩) 20.01 1000 = true ∧
    acceptFix (some ⟨0, 0, 0⟩) 0 60001 = true :=
  ⟨(jitter_decision_spec ⟨0, 0, 0⟩ 0 1000 0 0).2.2.2.2.1 (by norm_num),
   (jitter_decision_spec ⟨0, 0, 0⟩ 0 1000 0 0).2.2.2.2.2.1 (by norm_num),
   (jitter_decision_spec ⟨0, 0, 0⟩ 0 60001 0 0).2.2.2.2.2.2 (by norm_num)⟩

/-- C3: a submit whose input trims to the empty string is a no-op — no
message appended, loading untouched, no external call issued, the state
unchanged. -/
theorem blank_submit_is_noop (s : SessionState) (input uid : String) (t : ℚ)
    (prefs : UserPreferences) (loc : Option Coords) (h : jsTrim input = "") :
    (step s (.submitInput input uid t prefs loc)).messages = s.messages ∧
    (step s (.submitInput input uid t prefs loc)).isLoading = s.isLoading ∧
    (step s (.submitInput input uid t prefs loc)).calls = s.calls ∧
    step s (.submitInput input uid t prefs loc) = s := by
  have hb : (jsTrim input == "") = true := by simp [h]
  simp [step, hb]

/-- C3 witness: submitting `""` and `"   "` in the initial state leaves the
state exactly as it was. -/
theorem blank_submit_is_noop_witness :
    jsTrim "" = "" ∧ jsTrim "   " = "" ∧
    step (initState 0) (.submitInput "" "u1" 5 defaultPreferences none) = initState 0 ∧
    step (initState 0) (.submitInput "   " "u2" 7 defaultPreferences none) = initState 0 :=
  ⟨rfl, by decide,
   (blank_submit_is_noop (initState 0) "" "u1" 5 defaultPreferences none rfl).2.2.2,
   (blank_submit_is_noop (initState 0) "   " "u2" 7 defaultPreferences none
     (by decide)).2.2.2⟩

/-- Web citation A, as in the spec's reconciler example. -/
def chunkWebA : GroundingChunk :=
  { web := some ⟨"https://example.com/a", "Web A"⟩, maps := none }

/-- Map citation M1, as in the spec's reconciler example. -/
def chunkMapM1 : GroundingChunk :=
  { web := none, maps := some ⟨"https://maps.google.com/?cid=1", "Map M1"⟩ }

/-- Web citation B, as in the spec's reconciler example. -/
def chunkWebB : GroundingChunk :=
  { web := some ⟨"https://example.com/b", "Web B"⟩, maps := none }

/-- Map citation M2, as in the spec's reconciler example. -/
def chunkMapM2 : GroundingChunk :=
  { web := none, maps := some ⟨"https://maps.google.com/?cid=2", "Map M2"⟩ }

/-- C4 counterexample: on the spec's own example input
[web A, map M1, web B, map M2], the citations the code's reconciliation
surfaces are exactly [map M1] — not [web A, map M1, web B] as the claim
states; web-kind citations are not part of the reconciler's output. -/
theorem reconcile_web_citations_counterexample :
    displayedCitations (some [chunkWebA, chunkMapM1, chunkWebB, chunkMapM2]) = [chunkMapM1] ∧
    displayedCitations (some [chunkWebA, chunkMapM1, chunkWebB, chunkMapM2]) ≠
      [chunkWebA, chunkMapM1, chunkWebB] := by
  constructor
  · rfl
  · decide

/-- C4 (amended): the reconciler keeps, for display, at most the first
map-kind citation in source order (the first chunk with a maps uri) and drops
all subsequent map-kind citations; every citation it surfaces is map-kind
(web-kind citations are never surfaced); it is a pure function.  On
[web A, map M1, web B, map M2] it yields [map M1]. -/
theorem reconciler_single_map_policy (cs : List GroundingChunk) :
    primaryMapChunk (some cs) = cs.find? hasMapsUri ∧
    (displayedCitations (some cs)).length ≤ 1 ∧
    (displayedCitations (some cs)).all hasMapsUri = true ∧
    displayedCitations (some [chunkWebA, chunkMapM1, chunkWebB, chunkMapM2]) = [chunkMapM1] := by
  have hfind : primaryMapChunk (some cs) = cs.find? hasMapsUri := by
    simp only [primaryMapChunk, mapChunks, Option.getD_some]
    exact head?_filter_eq_find? hasMapsUri cs
  refine ⟨hfind, ?_, ?_, rfl⟩
  · unfold displayedCitations
    cases primaryMapChunk (some cs) <;> simp
  · unfold displayedCitations
    rcases h : primaryMapChunk (some cs) with _ | c
    · rfl
    · rw [hfind] at h
      simp [List.find?_some h]

/-- C6: when the external call fails, the conversation grows by exactly the
user message followed by the error model message — `isError` true, the fixed
apology text, no citations — and on either outcome the loading flag ends
false (the `finally` path). -/
theorem failing_submit_effects (st : ChatState) (prefs : UserPreferences)
    (loc : Option Coords) (text uid bid : String) (t1 t2 : ℚ) :
    (handleSendMessage st prefs loc text uid bid t1 t2 .failure).1.messages =
      st.messages ++ [mkUserMessage uid text t1, mkErrorMessage bid t2] ∧
    (handleSendMessage st prefs loc text uid bid t1 t2 .failure).1.messages.length =
      st.messages.length + 2 ∧
    (mkErrorMessage bid t2).isError = true ∧
    (mkErrorMessage bid t2).role = Role.model ∧
    (mkErrorMessage bid t2).text = networkErrorText ∧
    (mkErrorMessage bid t2).groundingChunks = none ∧
    (∀ outcome, (handleSendMessage st prefs loc text uid bid t1 t2 outcome).1.isLoading
      = false) := by
  refine ⟨rfl, by simp [handleSendMessage], rfl, rfl, rfl, rfl, ?_⟩
  intro outcome
  cases outcome <;> rfl

/-- C7: when the external call succeeds, the conversation grows by exactly
the user message followed by the model message carrying the response text and
its grounding chunks, and the loading flag ends false. -/
theorem successful_submit_effects (st : ChatState) (prefs : UserPreferences)
    (loc : Option Coords) (text uid bid : String) (t1 t2 : ℚ) (r : GeminiResponse) :
    (handleSendMessage st prefs loc text uid bid t1 t2 (.success r)).1.messages =
      st.messages ++ [mkUserMessage uid text t1, mkBotMessage bid r t2] ∧
    (handleSendMessage st prefs loc text uid bid t1 t2 (.success r)).1.messages.length =
      st.messages.length + 2 ∧
    (mkUserMessage uid text t1).role = Role.user ∧
    (mkUserMessage uid text t1).text = text ∧
    (mkBotMessage bid r t2).role = Role.model ∧
    (mkBotMessage bid r t2).text = r.text ∧
    (mkBotMessage bid r t2).groundingChunks = r.groundingChunks ∧
    (mkBotMessage bid r t2).isError = false ∧
    (handleSendMessage st prefs loc text uid bid t1 t2 (.success r)).1.isLoading = false := by
  exact ⟨rfl, by simp [handleSendMessage], rfl, rfl, rfl, rfl, rfl, rfl, rfl⟩

/-- C8: the history handed to the external service is exactly the non-error
messages of the pre-submit conversation, in order, as role/text pairs; the
new user text travels separately as the live message; appending the new user
turn before building would have added exactly one trailing (user, text) entry,
so the history stops right before the new turn.  The request does not depend
on the call's outcome. -/
theorem outbound_history_excludes_errors (st : ChatState) (prefs : UserPreferences)
    (loc : Option Coords) (text uid bid : String) (t1 t2 : ℚ) (outcome : ServiceOutcome) :
    (handleSendMessage st prefs loc text uid bid t1 t2 outcome).2 =
      sendMessageToGeminiRequest st.messages text prefs loc ∧
    (sendMessageToGeminiRequest st.messages text prefs loc).history =
      (st.messages.filter (fun m => m.isError == false)).map (fun m => (m.role, m.text)) ∧
    (sendMessageToGeminiRequest st.messages text prefs loc).message = text ∧
    (sendMessageToGeminiRequest (st.messages ++ [mkUserMessage uid text t1])
        text prefs loc).history =
      (sendMessageToGeminiRequest st.messages text prefs loc).history
        ++ [(Role.user, text)] := by
  refine ⟨by cases outcome <;> rfl, ?_, rfl, ?_⟩
  · simp only [sendMessageToGeminiRequest]
    congr 1
    apply List.filter_congr
    intro m _
    cases m.isError <;> rfl
  · simp [sendMessageToGeminiRequest, List.filter_append, mkUserMessage]

/-- C9: the instruction context is a deterministic function of the
preferences and the (possibly absent) location: equal inputs give
byte-identical instruction text. -/
theorem system_instruction_deterministic (p₁ p₂ : UserPreferences)
    (l₁ l₂ : Option Coords) (hp : p₁ = p₂) (hl : l₁ = l₂) :
    getSystemInstruction p₁ l₁ = getSystemInstruction p₂ l₂ := by
  subst hp
  subst hl
  rfl

/-- C9 witness: at the default preferences and a concrete location the two
computations of the instruction text coincide. -/
theorem system_instruction_deterministic_witness :
    getSystemInstruction defaultPreferences (some ⟨1, 2⟩) =
      getSystemInstruction defaultPreferences (some ⟨1, 2⟩) :=
  system_instruction_deterministic defaultPreferences defaultPreferences
    (some ⟨1, 2⟩) (some ⟨1, 2⟩) rfl rfl

/-- C5: in every reachable state, at most one external call is in flight,
the loading flag is set exactly while a call is in flight (so two
true-loading spans cannot overlap), and while it is set every submit is
rejected outright — the state does not change and no second call starts. -/
theorem submit_single_flight (s : SessionState) (h : Reachable s) :
    s.pending ≤ 1 ∧
    (s.isLoading = true ↔ s.pending ≠ 0) ∧
    (s.isLoading = true →
      ∀ input uid t prefs loc, step s (.submitInput input uid t prefs loc) = s) := by
  obtain ⟨hp, hl, _, _⟩ := reachable_inv s h
  refine ⟨hp, hl, ?_⟩
  intro hload input uid t prefs loc
  simp [step, hload]

/-- C5 witness: after one accepted submit the session is loading, the second
submit is rejected unchanged, and at most one call is in flight. -/
theorem submit_single_flight_witness :
    (step (initState 0) (.submitInput "hello" "u1" 1 defaultPreferences none)).pending ≤ 1 ∧
    step (step (initState 0) (.submitInput "hello" "u1" 1 defaultPreferences none))
        (.submitInput "again" "u2" 2 defaultPreferences none) =
      step (initState 0) (.submitInput "hello" "u1" 1 defaultPreferences none) :=
  ⟨(submit_single_flight _ (Reachable.next _ _ (Reachable.init 0))).1,
   (submit_single_flight _ (Reachable.next _ _ (Reachable.init 0))).2.2
     (by decide) "again" "u2" 2 defaultPreferences none⟩

/-- C10: every reachable conversation is non-empty with the welcome message
(id `'welcome'`, role model, not an error) as its first message, and every
request ever sent to the external service begins its history with the
welcome entry. -/
theorem welcome_message_invariant (s : SessionState) (h : Reachable s) :
    s.messages ≠ [] ∧
    (∃ t0 rest, s.messages = welcomeMessage t0 :: rest) ∧
    (∀ t0 : ℚ, (welcomeMessage t0).id = "welcome" ∧ (welcomeMessage t0).role = Role.model ∧
      (welcomeMessage t0).isError = false) ∧
    (∀ req ∈ s.calls, req.history.head? = some (Role.model, welcomeText)) := by
  obtain ⟨_, _, hm, hc⟩ := reachable_inv s h
  refine ⟨?_, hm, fun t0 => ⟨rfl, rfl, rfl⟩, hc⟩
  obtain ⟨t0, rest, hm⟩ := hm
  simp [hm]

/-- C10 witness: after the first accepted submit the conversation is
non-empty (it keeps the welcome message at its head). -/
theorem welcome_message_invariant_witness :
    (step (initState 0) (.submitInput "hi" "u1" 1 defaultPreferences none)).messages ≠ [] :=
  (welcome_message_invariant _ (Reachable.next _ _ (Reachable.init 0))).1

end EasyTra
